import Mathlib

/-!
Verification of the Sui flash-loan contract
(`contracts/sources/flash_loan.move`, module `sui_flash_loan::flash_loan`)
and its arbitrage detector (module `sui_flash_loan::arbitrage_detector`).

The Move code is shallowly embedded: u64 values are `Nat` together with
checked arithmetic that aborts exactly where Move aborts (overflow on
`+`/`*`, underflow on `-`, division by zero on `/`), `assert!` becomes a
conditional abort carrying the source error code, and each public function
becomes a Lean function returning `Except MoveAbort`.  Events, the `Clock`
argument (used only for event timestamps), and object UIDs are not state;
fresh object addresses are passed in explicitly where the source calls
`object::new`.
-/

/-- Largest value representable in a Move `u64`. -/
def U64_MAX : Nat := 18446744073709551615

/-- The ways a Move execution can abort: an `assert!`/explicit abort with a
numeric code, arithmetic overflow, subtraction underflow, division by zero,
or `table::add` on a key that is already present. -/
inductive MoveAbort where
  | assertFail (code : Nat)
  | arithOverflow
  | subUnderflow
  | divByZero
  | tableDuplicateKey
  deriving DecidableEq, Repr

instance {ε α : Type} [DecidableEq ε] [DecidableEq α] : DecidableEq (Except ε α) :=
  fun a b =>
    match a, b with
    | .ok x, .ok y =>
      if h : x = y then .isTrue (by rw [h]) else .isFalse (by simp [h])
    | .error x, .error y =>
      if h : x = y then .isTrue (by rw [h]) else .isFalse (by simp [h])
    | .ok _, .error _ => .isFalse (by simp)
    | .error _, .ok _ => .isFalse (by simp)

/-- Move u64 addition: aborts on overflow. -/
def checkedAdd (a b : Nat) : Except MoveAbort Nat :=
  if a + b ≤ U64_MAX then .ok (a + b) else .error .arithOverflow

/-- Move u64 multiplication: aborts on overflow. -/
def checkedMul (a b : Nat) : Except MoveAbort Nat :=
  if a * b ≤ U64_MAX then .ok (a * b) else .error .arithOverflow

/-- Move u64 subtraction: aborts on underflow. -/
def checkedSub (a b : Nat) : Except MoveAbort Nat :=
  if b ≤ a then .ok (a - b) else .error .subUnderflow

/-- Move u64 division: aborts on a zero divisor, otherwise floors. -/
def checkedDiv (a b : Nat) : Except MoveAbort Nat :=
  if b = 0 then .error .divByZero else .ok (a / b)

namespace flash_loan

/-! Error codes of `sui_flash_loan::flash_loan` (source lines 12-17). -/

def EInsufficientBalance : Nat := 0
def EInvalidRepayment : Nat := 1
def EUnauthorizedAccess : Nat := 2
def ELoanExpired : Nat := 3
def EMaxLoanExceeded : Nat := 4
def EPoolNotActive : Nat := 5

/-- The four Move struct abilities a struct declaration can carry. -/
structure Abilities where
  key : Bool
  copy : Bool
  drop : Bool
  store : Bool
  deriving DecidableEq, Repr

/-- The flash-loan obligation (source struct `FlashLoan`, lines 47-53).
The `id : UID` field is elided; `pool_id` is the address of the pool the
loan was taken from. -/
structure FlashLoan where
  amount : Nat
  fee : Nat
  borrower : Nat
  pool_id : Nat
  deriving DecidableEq, Repr

/-- Abilities declared on `FlashLoan` in the source, line 47:
`struct FlashLoan<phantom T> has key, store`. -/
def FlashLoan.abilities : Abilities :=
  { key := true, copy := false, drop := false, store := true }

/-- Move/Sui rule: `transfer::public_transfer` outside the defining module
requires the type to have both `key` and `store`; it gives the object to an
arbitrary owner, persisting it past the current transaction. -/
def publicTransferAllowed (a : Abilities) : Bool := a.key && a.store

/-- Move rule: a value can be embedded into another object (wrapping, or a
dynamic field via `public` variants), persisting it, exactly when it has
`store`. -/
def canBeWrapped (a : Abilities) : Bool := a.store

/-- The hot-potato discipline: the Move type system forces a value to be
consumed within the transaction that created it exactly when its struct has
no abilities at all (no `key`, `copy`, `drop`, or `store`). -/
def isHotPotato (a : Abilities) : Bool :=
  !a.key && !a.copy && !a.drop && !a.store

/-- The liquidity pool (source struct `LiquidityPool`, lines 55-64); the
`UID` is modelled by the plain address `id`, `Balance<T>` by its u64 value. -/
structure LiquidityPool where
  id : Nat
  balance : Nat
  fee_rate : Nat
  max_loan_amount : Nat
  total_loans_issued : Nat
  total_fees_collected : Nat
  active : Bool
  admin : Nat
  deriving DecidableEq, Repr

/-- `create_pool` (source lines 83-102).  The body contains no assertion,
so the function never aborts: it unconditionally publishes the pool with
the given balance, fee rate and loan cap, zeroed counters and
`active = true`.  `fresh_id` stands for the address minted by
`object::new(ctx)` and `sender` for `tx_context::sender(ctx)`. -/
def create_pool (initial_balance fee_rate max_loan_amount sender fresh_id : Nat) :
    Except MoveAbort LiquidityPool :=
  .ok { id := fresh_id
        balance := initial_balance
        fee_rate := fee_rate
        max_loan_amount := max_loan_amount
        total_loans_issued := 0
        total_fees_collected := 0
        active := true
        admin := sender }

/-- `borrow` (source lines 105-145).  Returns the updated pool, the value of
the borrowed coin, and the `FlashLoan` obligation.  The emitted
`FlashLoanBorrowed` event and the clock timestamp it carries are not
modelled. -/
def borrow (pool : LiquidityPool) (amount sender : Nat) :
    Except MoveAbort (LiquidityPool × Nat × FlashLoan) :=
  if pool.active = true then
    if amount ≤ pool.max_loan_amount then
      if amount ≤ pool.balance then
        match checkedMul amount pool.fee_rate with
        | .error e => .error e
        | .ok p =>
          match checkedDiv p 10000 with
          | .error e => .error e
          | .ok fee =>
            match checkedSub pool.balance amount with
            | .error e => .error e
            | .ok newBalance =>
              match checkedAdd pool.total_loans_issued 1 with
              | .error e => .error e
              | .ok newIssued =>
                .ok ({ pool with
                        balance := newBalance
                        total_loans_issued := newIssued },
                     amount,
                     { amount := amount, fee := fee,
                       borrower := sender, pool_id := pool.id })
      else .error (.assertFail EInsufficientBalance)
    else .error (.assertFail EMaxLoanExceeded)
  else .error (.assertFail EPoolNotActive)

/-- `repay` (source lines 148-185).  `payment` is the u64 value of the
payment coin; the full payment is joined into the pool balance.  Note that
the source never compares `loan.pool_id` with the pool it is repaying into.
The `FlashLoanRepaid` event (and the `profit` value it carries, which is
used nowhere else) is not modelled. -/
def repay (pool : LiquidityPool) (payment : Nat) (loan : FlashLoan) (sender : Nat) :
    Except MoveAbort LiquidityPool :=
  if sender = loan.borrower then
    match checkedAdd loan.amount loan.fee with
    | .error e => .error e
    | .ok owed =>
      if owed ≤ payment then
        match checkedAdd pool.balance payment with
        | .error e => .error e
        | .ok newBalance =>
          match checkedAdd pool.total_fees_collected loan.fee with
          | .error e => .error e
          | .ok newFees =>
            .ok { pool with
                    balance := newBalance
                    total_fees_collected := newFees }
      else .error (.assertFail EInvalidRepayment)
  else .error (.assertFail EUnauthorizedAccess)

/-- `update_fee_rate` (source lines 222-230): admin-gated, rejects rates
above 1000 basis points with abort code 101. -/
def update_fee_rate (pool : LiquidityPool) (new_fee_rate sender : Nat) :
    Except MoveAbort LiquidityPool :=
  if sender = pool.admin then
    if new_fee_rate ≤ 1000 then
      .ok { pool with fee_rate := new_fee_rate }
    else .error (.assertFail 101)
  else .error (.assertFail EUnauthorizedAccess)

/-- The sequential scenario of the spec: `borrow` an amount and then
`repay` it with a payment of exactly `amount + fee`, as the same caller. -/
def borrow_then_repay (pool : LiquidityPool) (amount sender : Nat) :
    Except MoveAbort LiquidityPool :=
  match borrow pool amount sender with
  | .error e => .error e
  | .ok (pool1, _funds, loan) => repay pool1 (loan.amount + loan.fee) loan sender

end flash_loan

namespace arbitrage_detector

/-- A recorded opportunity (source struct `ArbitrageOpportunity`,
lines 289-303); the `UID` is modelled by the address `id`. -/
structure ArbitrageOpportunity where
  id : Nat
  pool_a_id : Nat
  pool_b_id : Nat
  token_pair : String
  price_a : Nat
  price_b : Nat
  price_difference : Nat
  potential_profit : Nat
  recommended_amount : Nat
  opportunity_type : String
  created_at : Nat
  expires_at : Nat
  executed : Bool
  deriving DecidableEq, Repr

/-- The detector (source struct `ArbitrageDetector`, lines 305-312); the
`Table<address, ArbitrageOpportunity>` is modelled as an association list. -/
structure ArbitrageDetector where
  opportunities : List (Nat × ArbitrageOpportunity)
  registered_pools : List Nat
  min_profit_threshold : Nat
  max_opportunities : Nat
  admin : Nat
  deriving DecidableEq, Repr

/-- A pool snapshot handed to the detector (source struct `PoolInfo`,
lines 314-322). -/
structure PoolInfo where
  pool_id : Nat
  token_a_type : String
  token_b_type : String
  reserve_a : Nat
  reserve_b : Nat
  fee_rate : Nat
  pool_type : String
  deriving DecidableEq, Repr

/-- `table::add`: aborts when the key is already present, otherwise appends
the binding. -/
def tableAdd (t : List (Nat × ArbitrageOpportunity)) (k : Nat) (v : ArbitrageOpportunity) :
    Except MoveAbort (List (Nat × ArbitrageOpportunity)) :=
  if t.any (fun kv => kv.1 == k) then .error .tableDuplicateKey
  else .ok (t ++ [(k, v)])

/-- `calculate_amm_price` (source lines 500-504): the spot price
`reserve_b * 1000000 / reserve_a`, defined as 0 when `reserve_a == 0`. -/
def calculate_amm_price (reserve_a reserve_b : Nat) : Except MoveAbort Nat :=
  if reserve_a = 0 then .ok 0
  else
    match checkedMul reserve_b 1000000 with
    | .error e => .error e
    | .ok p => checkedDiv p reserve_a

/-- `create_opportunity` (source lines 506-539): builds the opportunity
record with `created_at = now` and `expires_at = now + 300000` and adds it
to the table under the fresh object address `fresh_id`.  The expiry sum is
written with the constant on the left (`300000 + now`): Move u64 addition
is commutative, also in its overflow-abort condition, and this order keeps
kernel reduction shallow when `now` is symbolic. -/
def create_opportunity (detector : ArbitrageDetector)
    (pool_a pool_b : Nat) (token_pair : String)
    (price_a price_b price_diff profit amount : Nat) (opp_type : String)
    (now fresh_id : Nat) :
    Except MoveAbort (ArbitrageDetector × Nat) :=
  match checkedAdd 300000 now with
  | .error e => .error e
  | .ok expires =>
    let opportunity : ArbitrageOpportunity :=
      { id := fresh_id
        pool_a_id := pool_a
        pool_b_id := pool_b
        token_pair := token_pair
        price_a := price_a
        price_b := price_b
        price_difference := price_diff
        potential_profit := profit
        recommended_amount := amount
        opportunity_type := opp_type
        created_at := now
        expires_at := expires
        executed := false }
    match tableAdd detector.opportunities fresh_id opportunity with
    | .error e => .error e
    | .ok t => .ok ({ detector with opportunities := t }, fresh_id)

/-- `detect_dex_arbitrage` (source lines 380-431).  Computes the two AMM
spot prices, their absolute difference, and the relative difference in
basis points `price_diff * 10000 / ((price_a + price_b) / 2)`; when it
exceeds `min_profit_threshold` it records a `dex_arbitrage` opportunity
(with the hardcoded pair, recommended amount 1000000) and returns `true`,
otherwise it returns `false` leaving the detector untouched.  The
`OpportunityDetected` event is not modelled. -/
def detect_dex_arbitrage (detector : ArbitrageDetector)
    (pool_a_info pool_b_info : PoolInfo) (now fresh_id _sender : Nat) :
    Except MoveAbort (ArbitrageDetector × Bool) :=
  match calculate_amm_price pool_a_info.reserve_a pool_a_info.reserve_b with
  | .error e => .error e
  | .ok price_a =>
    match calculate_amm_price pool_b_info.reserve_a pool_b_info.reserve_b with
    | .error e => .error e
    | .ok price_b =>
      let price_diff := if price_a > price_b then price_a - price_b
                        else price_b - price_a
      match checkedMul price_diff 10000 with
      | .error e => .error e
      | .ok scaled =>
        match checkedAdd price_a price_b with
        | .error e => .error e
        | .ok sum =>
          match checkedDiv scaled (sum / 2) with
          | .error e => .error e
          | .ok relative_diff =>
            if relative_diff > detector.min_profit_threshold then
              match create_opportunity detector
                  pool_a_info.pool_id pool_b_info.pool_id "SUI/USDC"
                  price_a price_b price_diff relative_diff 1000000
                  "dex_arbitrage" now fresh_id with
              | .error e => .error e
              | .ok (d, _) => .ok (d, true)
            else .ok (detector, false)

/-- `detect_cross_chain_arbitrage` (source lines 434-466).  Same relative
difference, gated at `min_profit_threshold * 2`.  On either branch the
detector is returned unchanged: the source only emits an event on the
`true` branch and never touches `detector.opportunities` (the `oracle`
parameter is likewise unused by the source body and is elided here). -/
def detect_cross_chain_arbitrage (detector : ArbitrageDetector)
    (sui_price external_price : Nat) (_now _sender : Nat) :
    Except MoveAbort (ArbitrageDetector × Bool) :=
  let price_diff := if sui_price > external_price then sui_price - external_price
                    else external_price - sui_price
  match checkedMul price_diff 10000 with
  | .error e => .error e
  | .ok scaled =>
    match checkedAdd sui_price external_price with
    | .error e => .error e
    | .ok sum =>
      match checkedDiv scaled (sum / 2) with
      | .error e => .error e
      | .ok relative_diff =>
        match checkedMul detector.min_profit_threshold 2 with
        | .error e => .error e
        | .ok gate =>
          if relative_diff > gate then .ok (detector, true)
          else .ok (detector, false)

/-- `detect_liquidation_opportunity` (source lines 469-497).  Computes
`collateral_value * 10000 / debt_value` with no zero guard on
`debt_value`; on the firing branch the emitted event also computes
`debt_value - collateral_value` (u64 subtraction) and
`debt_value * 500 / 10000`.  The detector state is never modified. -/
def detect_liquidation_opportunity (detector : ArbitrageDetector)
    (collateral_value debt_value liquidation_threshold : Nat) (_now _sender : Nat) :
    Except MoveAbort (ArbitrageDetector × Bool) :=
  match checkedMul collateral_value 10000 with
  | .error e => .error e
  | .ok scaled =>
    match checkedDiv scaled debt_value with
    | .error e => .error e
    | .ok collateral_ratio_bps =>
      if collateral_ratio_bps < liquidation_threshold then
        match checkedMul debt_value 500 with
        | .error e => .error e
        | .ok reward =>
          match checkedDiv reward 10000 with
          | .error e => .error e
          | .ok _profit_potential =>
            match checkedSub debt_value collateral_value with
            | .error e => .error e
            | .ok _event_price_difference => .ok (detector, true)
      else .ok (detector, false)

/-- `opportunity_count` (source lines 554-556). -/
def opportunity_count (detector : ArbitrageDetector) : Nat :=
  detector.opportunities.length

end arbitrage_detector


/-!
Concrete instances used by the theorems below.
-/

namespace flash_loan

/-- A pool as set up by the repository test `test_flash_loan_borrow_repay_success`:
1 SUI of liquidity, 30 bps fee, 0.5 SUI loan cap. -/
def poolStd : LiquidityPool :=
  { id := 3, balance := 1000000000, fee_rate := 30, max_loan_amount := 500000000,
    total_loans_issued := 0, total_fees_collected := 0, active := true, admin := 1 }

/-- The same pool, deactivated. -/
def poolInactive : LiquidityPool := { poolStd with active := false }

/-- A large pool with the maximal legal fee rate of 1000 bps. -/
def poolBig : LiquidityPool :=
  { id := 4, balance := 2 ^ 60, fee_rate := 1000, max_loan_amount := 2 ^ 60,
    total_loans_issued := 0, total_fees_collected := 0, active := true, admin := 1 }

/-- A pool holding the full u64 range at a 1 bps fee rate. -/
def poolFull : LiquidityPool :=
  { id := 5, balance := U64_MAX, fee_rate := 1, max_loan_amount := U64_MAX,
    total_loans_issued := 0, total_fees_collected := 0, active := true, admin := 1 }

/-- A second, unrelated pool (a different object id than `poolStd`). -/
def poolOther : LiquidityPool :=
  { id := 9, balance := 0, fee_rate := 30, max_loan_amount := 1000000000,
    total_loans_issued := 0, total_fees_collected := 0, active := true, admin := 1 }

/-- An obligation taken out against the pool with id 3 (= `poolStd`). -/
def loanOnPool3 : FlashLoan := { amount := 100, fee := 1, borrower := 2, pool_id := 3 }

end flash_loan

namespace arbitrage_detector

/-- A freshly initialised detector (source `init`, lines 334-343): empty
opportunity table, threshold 10 bps, cap 100. -/
def detectorInit : ArbitrageDetector :=
  { opportunities := [], registered_pools := [], min_profit_threshold := 10,
    max_opportunities := 100, admin := 1 }

/-- Snapshot of a very lopsided pool: reserves (1, 10^13), spot price 10^19. -/
def infoLopsided : PoolInfo :=
  { pool_id := 11, token_a_type := "SUI", token_b_type := "USDC",
    reserve_a := 1, reserve_b := 10000000000000, fee_rate := 30, pool_type := "cetus" }

/-- Snapshot of a balanced unit pool: reserves (1, 1), spot price 10^6. -/
def infoUnit : PoolInfo :=
  { pool_id := 12, token_a_type := "SUI", token_b_type := "USDC",
    reserve_a := 1, reserve_b := 1, fee_rate := 30, pool_type := "cetus" }

/-- Snapshot with an empty base reserve, spot price 0 by the guard. -/
def infoEmptyA : PoolInfo :=
  { pool_id := 13, token_a_type := "SUI", token_b_type := "USDC",
    reserve_a := 0, reserve_b := 5, fee_rate := 30, pool_type := "cetus" }

/-- Another snapshot with an empty base reserve, spot price 0 by the guard. -/
def infoEmptyB : PoolInfo :=
  { pool_id := 14, token_a_type := "SUI", token_b_type := "USDC",
    reserve_a := 0, reserve_b := 7, fee_rate := 30, pool_type := "cetus" }

/-- Snapshot of a pool priced 0.2 percent above `infoUnit`:
reserves (1000, 1002), spot price 1002000. -/
def infoSkewed : PoolInfo :=
  { pool_id := 15, token_a_type := "SUI", token_b_type := "USDC",
    reserve_a := 1000, reserve_b := 1002, fee_rate := 30, pool_type := "cetus" }

end arbitrage_detector

/-!
Shared helper lemmas about the embedded operations.
-/

namespace flash_loan

/-- `borrow` on a live pool within the loan cap and balance, with neither
the fee multiplication nor the loan counter overflowing u64, succeeds and
produces exactly the state changes and obligation of the source. -/
theorem borrow_ok (pool : LiquidityPool) (amount sender : Nat)
    (hact : pool.active = true) (hmax : amount ≤ pool.max_loan_amount)
    (hbal : amount ≤ pool.balance)
    (hmul : amount * pool.fee_rate ≤ U64_MAX)
    (hloans : pool.total_loans_issued + 1 ≤ U64_MAX) :
    borrow pool amount sender =
      .ok ({ pool with
              balance := pool.balance - amount,
              total_loans_issued := pool.total_loans_issued + 1 },
           amount,
           { amount := amount, fee := amount * pool.fee_rate / 10000,
             borrower := sender, pool_id := pool.id }) := by
  simp [borrow, checkedMul, checkedDiv, checkedSub, checkedAdd,
        hact, hmax, hbal, hmul, hloans]

/-- `repay` by the borrower with a sufficient payment, with none of the
u64 additions overflowing, succeeds and deposits the full payment while
crediting the fee counter. -/
theorem repay_ok (pool : LiquidityPool) (payment : Nat) (loan : FlashLoan) (sender : Nat)
    (hwho : sender = loan.borrower)
    (howed : loan.amount + loan.fee ≤ U64_MAX)
    (hpay : loan.amount + loan.fee ≤ payment)
    (hjoin : pool.balance + payment ≤ U64_MAX)
    (hfees : pool.total_fees_collected + loan.fee ≤ U64_MAX) :
    repay pool payment loan sender =
      .ok { pool with
              balance := pool.balance + payment,
              total_fees_collected := pool.total_fees_collected + loan.fee } := by
  simp [repay, checkedAdd, hwho, howed, hpay, hjoin, hfees]

/-- Whenever `borrow` succeeds, the returned obligation records the request
amount, the fee `amount * fee_rate / 10000` computed from the fee rate the
pool had at borrow time, the caller, and the id of the pool borrowed from. -/
theorem borrow_ok_shape (pool : LiquidityPool) (amount sender : Nat)
    (pool1 : LiquidityPool) (funds : Nat) (loan : FlashLoan)
    (h : borrow pool amount sender = .ok (pool1, funds, loan)) :
    loan.amount = amount ∧ loan.fee = amount * pool.fee_rate / 10000 ∧
    loan.borrower = sender ∧ loan.pool_id = pool.id ∧ funds = amount := by
  by_cases hact : pool.active = true
  · by_cases hmax : amount ≤ pool.max_loan_amount
    · by_cases hbal : amount ≤ pool.balance
      · by_cases hmul : amount * pool.fee_rate ≤ U64_MAX
        · by_cases hloans : pool.total_loans_issued + 1 ≤ U64_MAX
          · rw [borrow_ok pool amount sender hact hmax hbal hmul hloans] at h
            simp only [Except.ok.injEq, Prod.mk.injEq] at h
            obtain ⟨-, h2, h3⟩ := h
            subst h2 h3
            simp
          · simp [borrow, checkedMul, checkedDiv, checkedSub, checkedAdd,
                  hact, hmax, hbal, hmul, hloans] at h
        · simp [borrow, checkedMul, hact, hmax, hbal, hmul] at h
      · simp [borrow, hact, hmax, hbal] at h
    · simp [borrow, hact, hmax] at h
  · simp [borrow, hact] at h

end flash_loan

/-!
Claim theorems.
-/

/-- C1: the claim requires that a loan obligation can only be consumed by
`repay` on the same pool by the same borrower and that no code path can
discard, clone, store, or persist it past the transaction that created it.
The code violates this: the source declares `FlashLoan` with the `key` and
`store` abilities (line 47), so a borrower may `transfer::public_transfer`
the obligation to any address or wrap it inside another object, persisting
it past the transaction without ever repaying; and `repay` never compares
`loan.pool_id` with the pool it credits, so an obligation taken on the pool
with id 3 is happily consumed by a `repay` on the unrelated pool with id 9.
(The obligation is indeed neither clonable nor silently droppable: it lacks
`copy` and `drop`.) -/
theorem C1_obligation_escapes :
    flash_loan.publicTransferAllowed flash_loan.FlashLoan.abilities = true ∧
    flash_loan.canBeWrapped flash_loan.FlashLoan.abilities = true ∧
    flash_loan.isHotPotato flash_loan.FlashLoan.abilities = false ∧
    flash_loan.loanOnPool3.pool_id = 3 ∧ flash_loan.poolOther.id = 9 ∧
    flash_loan.repay flash_loan.poolOther 101 flash_loan.loanOnPool3 2 =
      .ok { flash_loan.poolOther with balance := 101, total_fees_collected := 1 } := by
  refine ⟨rfl, rfl, rfl, rfl, rfl, ?_⟩
  rfl

/-- C5 counterexample: the claim says `create_pool` fails whenever
`fee_rate_bps > 1000`, but the source body of `create_pool` contains no
check at all: called with a fee rate of 2000 bps it succeeds and publishes
the pool. -/
theorem C5_counterexample :
    flash_loan.create_pool 1000000000 2000 500000000 7 21 =
      .ok { id := 21, balance := 1000000000, fee_rate := 2000,
            max_loan_amount := 500000000, total_loans_issued := 0,
            total_fees_collected := 0, active := true, admin := 7 } ∧
    1000 < 2000 := ⟨rfl, by decide⟩

/-- C5 amended: `create_pool` never fails; for every input, including any
`fee_rate_bps > 1000`, it publishes a new shared pool with the given
balance, fee rate and loan cap, `total_loans_issued = 0`,
`total_fees_collected = 0`, and `active = true` (the 1000 bps cap is
enforced only by `update_fee_rate`). -/
theorem C5_create_pool_never_fails (initial_balance fee_rate max_loan_amount sender fresh_id : Nat) :
    flash_loan.create_pool initial_balance fee_rate max_loan_amount sender fresh_id =
      .ok { id := fresh_id, balance := initial_balance, fee_rate := fee_rate,
            max_loan_amount := max_loan_amount, total_loans_issued := 0,
            total_fees_collected := 0, active := true, admin := sender } := rfl

/-- C2 counterexample: the claim says every `borrow` with `pool.active`,
`amount ≤ max_loan_amount` and `balance ≥ amount` succeeds.  On the pool
`poolBig` (fee rate 1000 bps, cap and balance `2^60`) the request for
`2^60` meets all three stated preconditions, yet the Move u64
multiplication `amount * fee_rate = 2^60 * 1000` overflows and the call
aborts with an arithmetic error instead of succeeding. -/
theorem C2_counterexample :
    flash_loan.poolBig.active = true ∧
    (2 ^ 60 : Nat) ≤ flash_loan.poolBig.max_loan_amount ∧
    (2 ^ 60 : Nat) ≤ flash_loan.poolBig.balance ∧
    flash_loan.borrow flash_loan.poolBig (2 ^ 60) 2 = .error .arithOverflow := by
  refine ⟨rfl, by decide, by decide, ?_⟩
  rfl

/-- C2 amended: with the additional requirements that the u64 arithmetic
does not overflow (`amount * fee_rate ≤ 2^64 - 1` and
`total_loans_issued + 1 ≤ 2^64 - 1`), `borrow` succeeds: it withdraws
exactly `amount` from the balance, returns funds of value exactly `amount`,
stores `fee = floor(amount * fee_rate_bps / 10000)`, the caller and the
pool id in the returned obligation, and increments `total_loans_issued`
by 1.  The preconditions are checked in source order, so an inactive pool
signals `PoolNotActive` first, then an over-cap amount signals
`MaxLoanExceeded`, then a short balance signals `InsufficientBalance`. -/
theorem C2_borrow_spec (pool : flash_loan.LiquidityPool) (amount sender : Nat) :
    (pool.active = false →
      flash_loan.borrow pool amount sender =
        .error (.assertFail flash_loan.EPoolNotActive)) ∧
    (pool.active = true → pool.max_loan_amount < amount →
      flash_loan.borrow pool amount sender =
        .error (.assertFail flash_loan.EMaxLoanExceeded)) ∧
    (pool.active = true → amount ≤ pool.max_loan_amount → pool.balance < amount →
      flash_loan.borrow pool amount sender =
        .error (.assertFail flash_loan.EInsufficientBalance)) ∧
    (pool.active = true → amount ≤ pool.max_loan_amount → amount ≤ pool.balance →
      amount * pool.fee_rate ≤ U64_MAX → pool.total_loans_issued + 1 ≤ U64_MAX →
      flash_loan.borrow pool amount sender =
        .ok ({ pool with
                balance := pool.balance - amount,
                total_loans_issued := pool.total_loans_issued + 1 },
             amount,
             { amount := amount, fee := amount * pool.fee_rate / 10000,
               borrower := sender, pool_id := pool.id })) := by
  refine ⟨?_, ?_, ?_, ?_⟩
  · intro h
    simp [flash_loan.borrow, h]
  · intro h1 h2
    simp [flash_loan.borrow, h1, Nat.not_le_of_lt h2]
  · intro h1 h2 h3
    simp [flash_loan.borrow, h1, h2, Nat.not_le_of_lt h3]
  · intro h1 h2 h3 h4 h5
    exact flash_loan.borrow_ok pool amount sender h1 h2 h3 h4 h5

/-- Witness for C2: all four branches of `C2_borrow_spec` fire at concrete
inputs — the inactive pool, an over-cap request, an over-balance request,
and the nominal borrow of the repository test (0.1 SUI at 30 bps from
`poolStd`, fee 300000). -/
theorem C2_borrow_spec_witness :
    flash_loan.borrow flash_loan.poolInactive 100 2 =
      .error (.assertFail flash_loan.EPoolNotActive) ∧
    flash_loan.borrow flash_loan.poolStd 600000000 2 =
      .error (.assertFail flash_loan.EMaxLoanExceeded) ∧
    flash_loan.borrow { flash_loan.poolStd with balance := 50000000 } 100000000 2 =
      .error (.assertFail flash_loan.EInsufficientBalance) ∧
    flash_loan.borrow flash_loan.poolStd 100000000 2 =
      .ok ({ flash_loan.poolStd with balance := 900000000, total_loans_issued := 1 },
           100000000,
           { amount := 100000000, fee := 300000, borrower := 2, pool_id := 3 }) := by
  refine ⟨?_, ?_, ?_, ?_⟩
  · exact (C2_borrow_spec flash_loan.poolInactive 100 2).1 rfl
  · exact (C2_borrow_spec flash_loan.poolStd 600000000 2).2.1 rfl (by decide)
  · exact (C2_borrow_spec { flash_loan.poolStd with balance := 50000000 } 100000000 2).2.2.1
      rfl (by decide) (by decide)
  · exact (C2_borrow_spec flash_loan.poolStd 100000000 2).2.2.2
      rfl (by decide) (by decide) (by decide) (by decide)

/-- C3 counterexample: the claim says an underpaid `repay` always fails
with `InvalidRepayment`.  Borrowing the entire u64 balance of `poolFull`
(fee rate 1 bps) yields an obligation with `amount = 2^64 - 1` and
`fee = 1844674407370955`; a repayment of 0 by the borrower is underpaid,
yet `repay` aborts with a u64 arithmetic overflow while computing
`amount + fee`, not with `InvalidRepayment`. -/
theorem C3_counterexample :
    flash_loan.borrow flash_loan.poolFull U64_MAX 2 =
      .ok ({ flash_loan.poolFull with balance := 0, total_loans_issued := 1 },
           U64_MAX,
           { amount := U64_MAX, fee := 1844674407370955, borrower := 2, pool_id := 5 }) ∧
    (0 : Nat) < U64_MAX + 1844674407370955 ∧
    flash_loan.repay { flash_loan.poolFull with balance := 0, total_loans_issued := 1 } 0
        { amount := U64_MAX, fee := 1844674407370955, borrower := 2, pool_id := 5 } 2 =
      .error .arithOverflow ∧
    flash_loan.repay { flash_loan.poolFull with balance := 0, total_loans_issued := 1 } 0
        { amount := U64_MAX, fee := 1844674407370955, borrower := 2, pool_id := 5 } 2 ≠
      .error (.assertFail flash_loan.EInvalidRepayment) := by
  refine ⟨rfl, by decide, rfl, by decide⟩

/-- C3 amended: `repay` first checks the borrower, so a caller different
from `obligation.borrower` always fails with `UnauthorizedAccess`
regardless of the payment; a matching borrower that underpays
(`payment < amount + fee`) fails with `InvalidRepayment` provided
`amount + fee ≤ 2^64 - 1`, and aborts with a u64 arithmetic overflow
instead when `amount + fee` exceeds u64.  In every failure case the pool
is returned unchanged: the model only yields a new pool state on `.ok`,
mirroring that an aborted Move transaction leaves the shared pool object
exactly as it was. -/
theorem C3_repay_errors (pool : flash_loan.LiquidityPool) (payment : Nat)
    (loan : flash_loan.FlashLoan) (sender : Nat) :
    (sender ≠ loan.borrower →
      flash_loan.repay pool payment loan sender =
        .error (.assertFail flash_loan.EUnauthorizedAccess)) ∧
    (sender = loan.borrower → loan.amount + loan.fee ≤ U64_MAX →
      payment < loan.amount + loan.fee →
      flash_loan.repay pool payment loan sender =
        .error (.assertFail flash_loan.EInvalidRepayment)) ∧
    (sender = loan.borrower → U64_MAX < loan.amount + loan.fee →
      flash_loan.repay pool payment loan sender = .error .arithOverflow) := by
  refine ⟨?_, ?_, ?_⟩
  · intro h
    simp [flash_loan.repay, h]
  · intro h1 h2 h3
    simp [flash_loan.repay, checkedAdd, h1, h2, Nat.not_le_of_lt h3]
  · intro h1 h2
    simp [flash_loan.repay, checkedAdd, h1, Nat.not_le_of_lt h2]

/-- Witness for C3: a stranger (address 5) repaying the 100-unit loan of
borrower 2 fails with `UnauthorizedAccess` even with an ample payment,
and borrower 2 underpaying by one unit fails with `InvalidRepayment`. -/
theorem C3_repay_errors_witness :
    flash_loan.repay flash_loan.poolStd 1000 flash_loan.loanOnPool3 5 =
      .error (.assertFail flash_loan.EUnauthorizedAccess) ∧
    flash_loan.repay flash_loan.poolStd 100 flash_loan.loanOnPool3 2 =
      .error (.assertFail flash_loan.EInvalidRepayment) := by
  refine ⟨?_, ?_⟩
  · exact (C3_repay_errors flash_loan.poolStd 1000 flash_loan.loanOnPool3 5).1 (by decide)
  · exact (C3_repay_errors flash_loan.poolStd 100 flash_loan.loanOnPool3 2).2.1
      (by decide) (by decide) (by decide)

/-- C4 counterexample: the claim says a borrow→repay round trip with
`payment = amount + fee` leaves `pool.balance` unchanged overall.  On the
repository test pool (`poolStd`, 30 bps) a round trip of 0.1 SUI deposits
the full payment `amount + fee` back, so the balance ends at
1000300000 = 1000000000 + fee, not at the original 1000000000. -/
theorem C4_counterexample :
    flash_loan.borrow_then_repay flash_loan.poolStd 100000000 2 =
      .ok { flash_loan.poolStd with
              balance := 1000300000,
              total_loans_issued := 1,
              total_fees_collected := 300000 } ∧
    (1000300000 : Nat) ≠ flash_loan.poolStd.balance := by
  refine ⟨rfl, by decide⟩

/-- C4 amended: for every pool and amount satisfying the borrow
preconditions, provided no u64 arithmetic overflows (fee multiplication,
loan counter, `amount + fee`, `balance + fee`, fee counter), a sequential
borrow of `amount` followed by a repay of exactly `amount + fee` by the
same caller increases `pool.balance` by exactly `fee` (the full payment,
fee included, is deposited back), increments `total_loans_issued` by 1 and
increments `total_fees_collected` by `fee = floor(amount * fee_rate / 10000)`. -/
theorem C4_roundtrip (pool : flash_loan.LiquidityPool) (amount sender : Nat)
    (hact : pool.active = true) (hmax : amount ≤ pool.max_loan_amount)
    (hbal : amount ≤ pool.balance)
    (hmul : amount * pool.fee_rate ≤ U64_MAX)
    (hloans : pool.total_loans_issued + 1 ≤ U64_MAX)
    (howed : amount + amount * pool.fee_rate / 10000 ≤ U64_MAX)
    (hjoin : pool.balance + amount * pool.fee_rate / 10000 ≤ U64_MAX)
    (hfees : pool.total_fees_collected + amount * pool.fee_rate / 10000 ≤ U64_MAX) :
    flash_loan.borrow_then_repay pool amount sender =
      .ok { pool with
              balance := pool.balance + amount * pool.fee_rate / 10000,
              total_loans_issued := pool.total_loans_issued + 1,
              total_fees_collected :=
                pool.total_fees_collected + amount * pool.fee_rate / 10000 } := by
  rw [flash_loan.borrow_then_repay,
      flash_loan.borrow_ok pool amount sender hact hmax hbal hmul hloans]
  dsimp only
  have hr := flash_loan.repay_ok
    { pool with balance := pool.balance - amount,
                total_loans_issued := pool.total_loans_issued + 1 }
    (amount + amount * pool.fee_rate / 10000)
    { amount := amount, fee := amount * pool.fee_rate / 10000,
      borrower := sender, pool_id := pool.id }
    sender rfl howed (le_refl _)
    (show pool.balance - amount + (amount + amount * pool.fee_rate / 10000) ≤ U64_MAX by
      omega)
    (show pool.total_fees_collected + amount * pool.fee_rate / 10000 ≤ U64_MAX from hfees)
  rw [hr]
  dsimp only
  congr 1
  simp only [flash_loan.LiquidityPool.mk.injEq, true_and, and_true]
  omega

/-- Witness for C4: the round trip of the repository test
(`poolStd`, 0.1 SUI at 30 bps, fee 300000). -/
theorem C4_roundtrip_witness :
    flash_loan.borrow_then_repay flash_loan.poolStd 100000000 7 =
      .ok { flash_loan.poolStd with
              balance := 1000300000,
              total_loans_issued := 1,
              total_fees_collected := 300000 } := by
  have h := C4_roundtrip flash_loan.poolStd 100000000 7 rfl (by decide) (by decide)
    (by decide) (by decide) (by decide) (by decide) (by decide)
  simpa using h

/-- C9: `update_fee_rate` rejects every `new_rate > 1000` (with abort code
101 when called by the admin, and with `UnauthorizedAccess` even earlier
for anybody else); an accepted rate replaces only the pool's `fee_rate`,
every subsequent successful `borrow` computes its fee from the new rate,
and the fee stored in any obligation created before the update was computed
from the rate the pool had at borrow time — the obligation snapshots its
own `fee`, so the update cannot retroactively alter it. -/
theorem C9_fee_rate_snapshot (pool : flash_loan.LiquidityPool) (new_fee_rate sender : Nat) :
    (1000 < new_fee_rate →
      ∃ e, flash_loan.update_fee_rate pool new_fee_rate sender = .error e) ∧
    (sender = pool.admin → new_fee_rate ≤ 1000 →
      flash_loan.update_fee_rate pool new_fee_rate sender =
        .ok { pool with fee_rate := new_fee_rate } ∧
      (∀ amount caller pool2 funds2 loan2,
        flash_loan.borrow { pool with fee_rate := new_fee_rate } amount caller =
          .ok (pool2, funds2, loan2) →
        loan2.fee = amount * new_fee_rate / 10000) ∧
      (∀ amount caller pool1 funds1 loan1,
        flash_loan.borrow pool amount caller = .ok (pool1, funds1, loan1) →
        loan1.fee = amount * pool.fee_rate / 10000)) := by
  constructor
  · intro hgt
    by_cases hadm : sender = pool.admin
    · exact ⟨.assertFail 101, by simp [flash_loan.update_fee_rate, hadm, Nat.not_le_of_lt hgt]⟩
    · exact ⟨.assertFail flash_loan.EUnauthorizedAccess, by simp [flash_loan.update_fee_rate, hadm]⟩
  · intro hadm hle
    refine ⟨by simp [flash_loan.update_fee_rate, hadm, hle], ?_, ?_⟩
    · intro amount caller pool2 funds2 loan2 h
      have := (flash_loan.borrow_ok_shape _ amount caller pool2 funds2 loan2 h).2.1
      simpa using this
    · intro amount caller pool1 funds1 loan1 h
      exact (flash_loan.borrow_ok_shape pool amount caller pool1 funds1 loan1 h).2.1

/-- Witness for C9: on `poolStd` (30 bps, admin 1) the rate 2000 is
rejected, the rate 50 is accepted, a borrow of 0.1 SUI after the update
carries fee 500000 = 100000000 * 50 / 10000, and the obligation of the
same borrow taken before the update carries fee
300000 = 100000000 * 30 / 10000. -/
theorem C9_fee_rate_snapshot_witness :
    (∃ e, flash_loan.update_fee_rate flash_loan.poolStd 2000 1 = .error e) ∧
    flash_loan.update_fee_rate flash_loan.poolStd 50 1 =
      .ok { flash_loan.poolStd with fee_rate := 50 } ∧
    (500000 : Nat) = 100000000 * 50 / 10000 ∧
    (300000 : Nat) = 100000000 * 30 / 10000 := by
  refine ⟨(C9_fee_rate_snapshot flash_loan.poolStd 2000 1).1 (by decide),
          ((C9_fee_rate_snapshot flash_loan.poolStd 50 1).2 rfl (by decide)).1,
          ?_, ?_⟩
  · exact ((C9_fee_rate_snapshot flash_loan.poolStd 50 1).2 rfl (by decide)).2.1
      100000000 2 _ _ _ rfl
  · exact ((C9_fee_rate_snapshot flash_loan.poolStd 50 1).2 rfl (by decide)).2.2
      100000000 2 _ _ _ rfl

/-- C10: `detect_liquidation_opportunity` computes
`collateral_value * 10000 / debt_value` with no zero guard, so with
`debt_value = 0` the call never succeeds, whatever the other arguments:
it aborts with a division by zero (or, when `collateral_value * 10000`
already exceeds u64, with the arithmetic overflow raised just before the
division).  Totality therefore requires the precondition `debt_value > 0`. -/
theorem C10_liquidation_needs_positive_debt (d : arbitrage_detector.ArbitrageDetector)
    (collateral_value liquidation_threshold now sender : Nat) :
    (∀ r, arbitrage_detector.detect_liquidation_opportunity d collateral_value 0
        liquidation_threshold now sender ≠ .ok r) ∧
    (collateral_value * 10000 ≤ U64_MAX →
      arbitrage_detector.detect_liquidation_opportunity d collateral_value 0
        liquidation_threshold now sender = .error .divByZero) := by
  constructor
  · intro r
    by_cases hov : collateral_value * 10000 ≤ U64_MAX
    · simp [arbitrage_detector.detect_liquidation_opportunity, checkedMul, checkedDiv, hov]
    · simp [arbitrage_detector.detect_liquidation_opportunity, checkedMul, hov]
  · intro hov
    simp [arbitrage_detector.detect_liquidation_opportunity, checkedMul, checkedDiv, hov]

/-- Witness for C10: the spec's own liquidation example with the debt
zeroed out — `detect_liquidation_opportunity(collateral = 8000, debt = 0,
threshold = 8500)` aborts with a division by zero. -/
theorem C10_liquidation_needs_positive_debt_witness :
    arbitrage_detector.detect_liquidation_opportunity arbitrage_detector.detectorInit
        8000 0 8500 0 2 = .error .divByZero :=
  (C10_liquidation_needs_positive_debt arbitrage_detector.detectorInit 8000 8500 0 2).2
    (by decide)

/-- C8 counterexample: the claim says that whenever
`detect_cross_chain_arbitrage` returns `true` it records an opportunity of
kind CrossChain in the detector's opportunity table.  With local price
1000000 and external price 2000000 (relative difference 6666 bps, far above
the doubled 20 bps gate) the call returns `true`, yet the detector it
returns is the unchanged input `detectorInit` and its opportunity table is
still empty: the source only emits an event and never touches the table. -/
theorem C8_counterexample :
    arbitrage_detector.detect_cross_chain_arbitrage arbitrage_detector.detectorInit
        1000000 2000000 0 2 = .ok (arbitrage_detector.detectorInit, true) ∧
    arbitrage_detector.detectorInit.opportunities = [] ∧
    arbitrage_detector.opportunity_count arbitrage_detector.detectorInit = 0 := by
  refine ⟨rfl, rfl, rfl⟩

/-- Evaluation rule: a non-overflowing u64 multiplication succeeds. -/
theorem checkedMul_ok {a b : Nat} (h : a * b ≤ U64_MAX) : checkedMul a b = .ok (a * b) := by
  simp [checkedMul, h]

/-- Evaluation rule: a non-overflowing u64 addition succeeds. -/
theorem checkedAdd_ok {a b : Nat} (h : a + b ≤ U64_MAX) : checkedAdd a b = .ok (a + b) := by
  simp [checkedAdd, h]

/-- Evaluation rule: a u64 division by a nonzero divisor succeeds. -/
theorem checkedDiv_ok {a b : Nat} (h : b ≠ 0) : checkedDiv a b = .ok (a / b) := by
  simp [checkedDiv, h]

/-- C8 amended: provided the u64 computation does not abort
(`local + external ≤ 2^64 - 1`, `diff * 10000 ≤ 2^64 - 1`, a nonzero
integer average, `2 * min_profit_threshold ≤ 2^64 - 1`),
`detect_cross_chain_arbitrage` returns `true` iff the relative difference
in bps, `diff * 10000 / ((local + external) / 2)`, exceeds
`2 * min_profit_threshold_bps`; but it records nothing: in both cases the
detector state, in particular its opportunity table, is returned entirely
unchanged (on `true` the source only emits an `OpportunityDetected` event
of type cross_chain). -/
theorem C8_cross_chain_spec (d : arbitrage_detector.ArbitrageDetector)
    (sui_price external_price now sender diff relDiff : Nat)
    (hdiff : diff = if sui_price > external_price then sui_price - external_price
                    else external_price - sui_price)
    (hscaled : diff * 10000 ≤ U64_MAX)
    (hsum : sui_price + external_price ≤ U64_MAX)
    (havg : 0 < (sui_price + external_price) / 2)
    (hrel : relDiff = diff * 10000 / ((sui_price + external_price) / 2))
    (hgate : d.min_profit_threshold * 2 ≤ U64_MAX) :
    arbitrage_detector.detect_cross_chain_arbitrage d sui_price external_price now sender =
      .ok (d, decide (d.min_profit_threshold * 2 < relDiff)) := by
  subst hdiff hrel
  unfold arbitrage_detector.detect_cross_chain_arbitrage
  dsimp only
  rw [checkedMul_ok hscaled]
  dsimp only
  rw [checkedAdd_ok hsum]
  dsimp only
  rw [checkedDiv_ok (by omega)]
  dsimp only
  rw [checkedMul_ok hgate]
  dsimp only
  by_cases hcmp : d.min_profit_threshold * 2 <
      (if sui_price > external_price then sui_price - external_price
       else external_price - sui_price) * 10000 / ((sui_price + external_price) / 2)
  · rw [if_pos hcmp, decide_eq_true hcmp]
  · rw [if_neg hcmp, decide_eq_false hcmp]

/-- Witness for C8: local price 2000000 against external price 1000000
fires (6666 bps > 20 bps) and local 1000000 against external 1001000 does
not (9 bps ≤ 20 bps); in both cases the detector comes back unchanged. -/
theorem C8_cross_chain_spec_witness :
    arbitrage_detector.detect_cross_chain_arbitrage arbitrage_detector.detectorInit
        2000000 1000000 0 2 = .ok (arbitrage_detector.detectorInit, true) ∧
    arbitrage_detector.detect_cross_chain_arbitrage arbitrage_detector.detectorInit
        1000000 1001000 0 2 = .ok (arbitrage_detector.detectorInit, false) := by
  constructor
  · have h := C8_cross_chain_spec arbitrage_detector.detectorInit 2000000 1000000 0 2
      1000000 6666 (by decide) (by decide) (by decide) (by decide) (by decide) (by decide)
    simpa using h
  · have h := C8_cross_chain_spec arbitrage_detector.detectorInit 1000000 1001000 0 2
      1000 9 (by decide) (by decide) (by decide) (by decide) (by decide) (by decide)
    simpa using h

/-- Evaluation rule: an overflowing u64 multiplication aborts. -/
theorem checkedMul_err {a b : Nat} (h : ¬ a * b ≤ U64_MAX) :
    checkedMul a b = .error .arithOverflow := by
  simp [checkedMul, h]

/-- Evaluation rule: an overflowing u64 addition aborts. -/
theorem checkedAdd_err {a b : Nat} (h : ¬ a + b ≤ U64_MAX) :
    checkedAdd a b = .error .arithOverflow := by
  simp [checkedAdd, h]

/-- C6 counterexample: the claim says `detect_dex_arbitrage` returns true
iff the relative difference exceeds the threshold.  With the lopsided
snapshot (reserves 1 and 10^13, spot price 10^19) against the unit snapshot
(price 10^6), the relative difference per the claim's own formula is 19999
bps, far above the threshold of 10, so the claim demands `true` — but the
call aborts with a u64 arithmetic overflow while computing
`price_diff * 10000`, and returns nothing at all. -/
theorem C6_counterexample :
    arbitrage_detector.calculate_amm_price 1 10000000000000 = .ok 10000000000000000000 ∧
    arbitrage_detector.calculate_amm_price 1 1 = .ok 1000000 ∧
    arbitrage_detector.detectorInit.min_profit_threshold <
      (10000000000000000000 - 1000000) * 10000 /
        ((10000000000000000000 + 1000000) / 2) ∧
    arbitrage_detector.detect_dex_arbitrage arbitrage_detector.detectorInit
        arbitrage_detector.infoLopsided arbitrage_detector.infoUnit 0 5 2 =
      .error .arithOverflow := by
  refine ⟨rfl, rfl, by decide, rfl⟩

/-- C6 amended: provided the u64 computation does not abort
(`price_a + price_b ≤ 2^64 - 1`, `diff * 10000 ≤ 2^64 - 1`, a nonzero
integer average `(price_a + price_b) / 2`, `now + 300000 ≤ 2^64 - 1`, and
a fresh table key), `detect_dex_arbitrage` returns `true` iff
`relative_diff_bps = diff * 10000 / ((price_a + price_b) / 2)` exceeds
`min_profit_threshold_bps`; on `true` it records a new opportunity of
opportunity_type dex_arbitrage with `created_at = now` and
`expires_at = 300000 + now = created_at + 300000` under the fresh id; on
`false` the detector state is entirely unchanged. -/
theorem C6_detect_dex_spec (d : arbitrage_detector.ArbitrageDetector)
    (a b : arbitrage_detector.PoolInfo)
    (now fresh_id sender price_a price_b diff relDiff : Nat)
    (ha : arbitrage_detector.calculate_amm_price a.reserve_a a.reserve_b = .ok price_a)
    (hb : arbitrage_detector.calculate_amm_price b.reserve_a b.reserve_b = .ok price_b)
    (hdiff : diff = if price_a > price_b then price_a - price_b else price_b - price_a)
    (hscaled : diff * 10000 ≤ U64_MAX)
    (hsum : price_a + price_b ≤ U64_MAX)
    (havg : 0 < (price_a + price_b) / 2)
    (hrel : relDiff = diff * 10000 / ((price_a + price_b) / 2))
    (hexp : now + 300000 ≤ U64_MAX)
    (hfresh : (d.opportunities.any fun kv => kv.1 == fresh_id) = false) :
    (d.min_profit_threshold < relDiff →
      arbitrage_detector.detect_dex_arbitrage d a b now fresh_id sender =
        .ok ({ d with opportunities := d.opportunities ++
                [(fresh_id,
                  { id := fresh_id, pool_a_id := a.pool_id, pool_b_id := b.pool_id,
                    token_pair := "SUI/USDC", price_a := price_a, price_b := price_b,
                    price_difference := diff, potential_profit := relDiff,
                    recommended_amount := 1000000,
                    opportunity_type := "dex_arbitrage",
                    created_at := now, expires_at := 300000 + now,
                    executed := false })] }, true) ∧
      300000 + now = now + 300000) ∧
    (relDiff ≤ d.min_profit_threshold →
      arbitrage_detector.detect_dex_arbitrage d a b now fresh_id sender =
        .ok (d, false)) := by
  subst hdiff hrel
  constructor
  · intro hcmp
    refine ⟨?_, Nat.add_comm 300000 now⟩
    unfold arbitrage_detector.detect_dex_arbitrage
    rw [ha, hb]
    dsimp only
    rw [checkedMul_ok hscaled]
    dsimp only
    rw [checkedAdd_ok hsum]
    dsimp only
    rw [checkedDiv_ok (by omega)]
    dsimp only
    rw [if_pos hcmp]
    unfold arbitrage_detector.create_opportunity
    rw [checkedAdd_ok (by omega : 300000 + now ≤ U64_MAX)]
    dsimp only
    unfold arbitrage_detector.tableAdd
    rw [hfresh]
    rw [if_neg Bool.false_ne_true]
  · intro hcmp
    unfold arbitrage_detector.detect_dex_arbitrage
    rw [ha, hb]
    dsimp only
    rw [checkedMul_ok hscaled]
    dsimp only
    rw [checkedAdd_ok hsum]
    dsimp only
    rw [checkedDiv_ok (by omega)]
    dsimp only
    rw [if_neg (Nat.not_lt.mpr hcmp)]

/-- Witness for C6: the unit snapshot (price 10^6) against the skewed
snapshot (price 1002000) yields 19 bps > 10 bps and records the
dex_arbitrage opportunity expiring at 7 + 300000; the unit snapshot
against itself yields 0 bps and changes nothing. -/
theorem C6_detect_dex_spec_witness :
    arbitrage_detector.detect_dex_arbitrage arbitrage_detector.detectorInit
        arbitrage_detector.infoUnit arbitrage_detector.infoSkewed 7 5 2 =
      .ok ({ arbitrage_detector.detectorInit with opportunities :=
              [(5, { id := 5, pool_a_id := 12, pool_b_id := 15,
                     token_pair := "SUI/USDC", price_a := 1000000, price_b := 1002000,
                     price_difference := 2000, potential_profit := 19,
                     recommended_amount := 1000000,
                     opportunity_type := "dex_arbitrage",
                     created_at := 7, expires_at := 300007,
                     executed := false })] }, true) ∧
    arbitrage_detector.detect_dex_arbitrage arbitrage_detector.detectorInit
        arbitrage_detector.infoUnit arbitrage_detector.infoUnit 7 5 2 =
      .ok (arbitrage_detector.detectorInit, false) := by
  constructor
  · have h := ((C6_detect_dex_spec arbitrage_detector.detectorInit
      arbitrage_detector.infoUnit arbitrage_detector.infoSkewed 7 5 2
      1000000 1002000 2000 19 rfl rfl (by decide) (by decide) (by decide) (by decide)
      (by decide) (by decide) rfl).1 (by decide)).1
    simpa using h
  · exact (C6_detect_dex_spec arbitrage_detector.detectorInit
      arbitrage_detector.infoUnit arbitrage_detector.infoUnit 7 5 2
      1000000 1000000 0 0 rfl rfl (by decide) (by decide) (by decide) (by decide)
      (by decide) (by decide) rfl).2 (by decide)

/-- C7 counterexample: the claim says every division performed by the
detection computation has a nonzero divisor.  With two snapshots whose base
reserves are empty both guarded prices are 0, the integer average
`(0 + 0) / 2` is 0, and `detect_dex_arbitrage` aborts with a division by
zero on the relative-difference division. -/
theorem C7_counterexample :
    arbitrage_detector.calculate_amm_price 0 5 = .ok 0 ∧
    arbitrage_detector.calculate_amm_price 0 7 = .ok 0 ∧
    arbitrage_detector.detect_dex_arbitrage arbitrage_detector.detectorInit
        arbitrage_detector.infoEmptyA arbitrage_detector.infoEmptyB 0 5 2 =
      .error .divByZero := by
  refine ⟨rfl, rfl, rfl⟩

/-- C7 amended: `calculate_amm_price` itself never divides by zero — the
price is 0 when `reserve_base = 0` and otherwise
`reserve_quote * 1000000 / reserve_base` with a nonzero divisor — but the
relative-difference division of `detect_dex_arbitrage` divides by the
integer average `(price_a + price_b) / 2`, which is zero whenever
`price_a + price_b ≤ 1`; the detection computation is free of
division-by-zero aborts only under the precondition
`price_a + price_b ≥ 2`. -/
theorem C7_division_guards :
    (∀ reserve_a reserve_b : Nat, reserve_a = 0 →
      arbitrage_detector.calculate_amm_price reserve_a reserve_b = .ok 0) ∧
    (∀ reserve_a reserve_b : Nat,
      arbitrage_detector.calculate_amm_price reserve_a reserve_b ≠ .error .divByZero) ∧
    (∀ (d : arbitrage_detector.ArbitrageDetector) (a b : arbitrage_detector.PoolInfo)
        (now fresh_id sender price_a price_b : Nat),
      arbitrage_detector.calculate_amm_price a.reserve_a a.reserve_b = .ok price_a →
      arbitrage_detector.calculate_amm_price b.reserve_a b.reserve_b = .ok price_b →
      2 ≤ price_a + price_b →
      arbitrage_detector.detect_dex_arbitrage d a b now fresh_id sender ≠
        .error .divByZero) := by
  refine ⟨?_, ?_, ?_⟩
  · intro ra rb h
    simp [arbitrage_detector.calculate_amm_price, h]
  · intro ra rb
    by_cases h : ra = 0
    · simp [arbitrage_detector.calculate_amm_price, h]
    · by_cases h2 : rb * 1000000 ≤ U64_MAX
      · simp [arbitrage_detector.calculate_amm_price, h, checkedMul_ok h2, checkedDiv, h]
      · simp [arbitrage_detector.calculate_amm_price, h, checkedMul_err h2]
  · intro d a b now fresh_id sender price_a price_b h1 h2 hsum2 hcontra
    unfold arbitrage_detector.detect_dex_arbitrage at hcontra
    rw [h1, h2] at hcontra
    dsimp only at hcontra
    by_cases h3 : (if price_a > price_b then price_a - price_b
                   else price_b - price_a) * 10000 ≤ U64_MAX
    · rw [checkedMul_ok h3] at hcontra
      dsimp only at hcontra
      by_cases h4 : price_a + price_b ≤ U64_MAX
      · rw [checkedAdd_ok h4] at hcontra
        dsimp only at hcontra
        rw [checkedDiv_ok (by omega : (price_a + price_b) / 2 ≠ 0)] at hcontra
        dsimp only at hcontra
        by_cases h5 : d.min_profit_threshold <
            (if price_a > price_b then price_a - price_b
             else price_b - price_a) * 10000 / ((price_a + price_b) / 2)
        · rw [if_pos h5] at hcontra
          unfold arbitrage_detector.create_opportunity at hcontra
          by_cases h6 : 300000 + now ≤ U64_MAX
          · rw [checkedAdd_ok h6] at hcontra
            dsimp only at hcontra
            unfold arbitrage_detector.tableAdd at hcontra
            by_cases h7 : (d.opportunities.any fun kv => kv.1 == fresh_id) = true
            · rw [if_pos h7] at hcontra
              simp at hcontra
            · rw [if_neg (by simpa using h7)] at hcontra
              simp at hcontra
          · rw [checkedAdd_err h6] at hcontra
            simp at hcontra
        · rw [if_neg h5] at hcontra
          simp at hcontra
      · rw [checkedAdd_err h4] at hcontra
        simp at hcontra
    · rw [checkedMul_err h3] at hcontra
      simp at hcontra

/-- Witness for C7: the guard fires on an empty base reserve; a concrete
price computation and a concrete full detection (unit against skewed
snapshot) are both free of division-by-zero aborts. -/
theorem C7_division_guards_witness :
    arbitrage_detector.calculate_amm_price 0 9 = .ok 0 ∧
    arbitrage_detector.calculate_amm_price 1000 1002 ≠ .error .divByZero ∧
    arbitrage_detector.detect_dex_arbitrage arbitrage_detector.detectorInit
        arbitrage_detector.infoUnit arbitrage_detector.infoSkewed 7 5 2 ≠
      .error .divByZero :=
  ⟨C7_division_guards.1 0 9 rfl,
   C7_division_guards.2.1 1000 1002,
   C7_division_guards.2.2 arbitrage_detector.detectorInit
     arbitrage_detector.infoUnit arbitrage_detector.infoSkewed 7 5 2
     1000000 1002000 rfl rfl (by decide)⟩
